import Mathlib

/-!
# Verification of the link-manager integration-test scripts

A shallow embedding of the ten `testsprite_tests/TC0xx_*.py` scripts.
Each script is a linear sequence of HTTP request-and-assert steps; we model
a run of a script as a pure function of an *environment* describing the
responses the external server gives, and prove properties of the resulting
outcome, the list of requests issued, and the cleanup behaviour.

Python-specific conventions captured by the embedding:
* `dict.get(k)` returning a possibly absent value is `Option`;
* Python truthiness of a string (`if token:`) is "present and nonempty";
* Python truthiness of an integer id (`if project_id:`) is "present and
  nonzero";
* `a or b` (Python) returns `a` when `a` is truthy and `b` otherwise;
* an `assert` failure aborts the remaining steps of the `try` body;
* a `finally` block always runs, and an exception raised *inside* the
  `finally` block replaces any in-flight exception (Python semantics).
-/

/-- Outcome of one scenario run: either the script ran to completion, or it
stopped with the message of the first uncaught assertion/exception.  In the
Python scripts an outcome is "the process exits 0" versus "the traceback's
message"; a `finally`-block exception replaces the in-flight one. -/
inductive Outcome where
  | passed
  | failed (msg : String)
deriving DecidableEq, Repr

/-- Python truthiness of an optional string: `None` and `""` are falsy. -/
def strTruthy : Option String → Bool
  | none => false
  | some s => s ≠ ""

/-- Python `a or b` on optional strings: `a` when truthy, else `b`. -/
def pyOrStr (a b : Option String) : Option String :=
  if strTruthy a then a else b

/-- Python truthiness of an optional integer id: `None` and `0` are falsy. -/
def natTruthy : Option Nat → Bool
  | none => false
  | some n => n ≠ 0

/-- Python `a or b` on optional integer ids: `a` when truthy, else `b`. -/
def pyOrNat (a b : Option Nat) : Option Nat :=
  if natTruthy a then a else b

/-! ## TC001: rate-limit probe (step 3 of the login scenario)

```python
max_attempts = 10
rate_limited = False
for _ in range(max_attempts):
    resp = requests.post(LOGIN_URL, json=invalid_payload, ...)
    if resp.status_code == 429:
        rate_limited = True
        break
    time.sleep(0.1)
assert rate_limited, "Rate limit not enforced after multiple invalid login attempts"
```

The environment is `res : Nat → Nat`, the status code of the k-th probe
request.  `probeFrom res i n` runs the loop with `n` iterations left and the
next request being the `i`-th; it returns `(rate_limited, requests issued,
number of 0.1-second sleeps performed)`. -/

/-- `max_attempts = 10` in `TC001_user_login_functionality.py`. -/
def tc001MaxAttempts : Nat := 10

/-- The `time.sleep(0.1)` pause, in seconds, between probe attempts. -/
def tc001SleepSeconds : ℚ := 1 / 10

/-- The probe loop of TC001: issue the `i`-th request, stop on a 429,
otherwise sleep once and continue with one fewer attempt remaining. -/
def probeFrom (res : Nat → Nat) : Nat → Nat → Bool × Nat × Nat
  | _, 0 => (false, 0, 0)
  | i, n + 1 =>
    if res i = 429 then (true, 1, 0)
    else
      let r := probeFrom res (i + 1) n
      (r.1, r.2.1 + 1, r.2.2 + 1)

/-- The TC001 rate-limit probe: run the loop for `max_attempts = 10`
iterations starting from the first response. -/
def rateLimitProbe (res : Nat → Nat) : Bool × Nat × Nat :=
  probeFrom res 0 tc001MaxAttempts

/-- Step 3 of TC001: `assert rate_limited` fails the scenario when the probe
exhausted its attempts without a 429. -/
def tc001RateLimitStep (res : Nat → Nat) : Outcome :=
  if (rateLimitProbe res).1 then .passed
  else .failed "Rate limit not enforced after multiple invalid login attempts"

/-! Helper lemmas about the probe loop. -/

theorem probeFrom_exhaust (res : Nat → Nat) :
    ∀ n i, (∀ k, k < n → res (i + k) ≠ 429) →
      probeFrom res i n = (false, n, n) := by
  intro n
  induction n with
  | zero => intro i _; rfl
  | succ m ih =>
    intro i h
    have h0 : res i ≠ 429 := by
      have := h 0 (Nat.succ_pos m)
      simpa using this
    have hrec : probeFrom res (i + 1) m = (false, m, m) := by
      apply ih
      intro k hk
      have := h (k + 1) (Nat.succ_lt_succ hk)
      simpa [Nat.add_assoc, Nat.add_comm 1 k] using this
    simp [probeFrom, h0, hrec]

theorem probeFrom_hit (res : Nat → Nat) :
    ∀ j n i, j < n → (∀ k, k < j → res (i + k) ≠ 429) → res (i + j) = 429 →
      probeFrom res i n = (true, j + 1, j) := by
  intro j
  induction j with
  | zero =>
    intro n i hn _ hhit
    match n, hn with
    | m + 1, _ =>
      simp only [Nat.add_zero] at hhit
      simp [probeFrom, hhit]
  | succ p ih =>
    intro n i hn hmiss hhit
    match n, hn with
    | m + 1, hn =>
      have h0 : res i ≠ 429 := by
        have := hmiss 0 (Nat.succ_pos p)
        simpa using this
      have hrec : probeFrom res (i + 1) m = (true, p + 1, p) := by
        apply ih m (i + 1) (Nat.lt_of_succ_lt_succ hn)
        · intro k hk
          have := hmiss (k + 1) (Nat.succ_lt_succ hk)
          simpa [Nat.add_assoc, Nat.add_comm 1 k] using this
        · simpa [Nat.add_assoc, Nat.add_comm 1 p] using hhit
      simp [probeFrom, h0, hrec]

/-- C1: the rate-limit probe issues the failing-credential login up to 10
attempts with a 0.1-second pause between attempts; if the `j`-th response
(`j < 10`, all earlier ones non-429) has status 429 the probe reports
success having issued exactly `j + 1` requests (none after the 429) with
`j` pauses of 0.1 s between them; if none of the 10 responses is 429 the
probe issues all 10 requests and the scenario fails. -/
theorem tc001_rate_limit_probe (res : Nat → Nat) :
    (∀ j, j < tc001MaxAttempts → (∀ k, k < j → res k ≠ 429) → res j = 429 →
      rateLimitProbe res = (true, j + 1, j) ∧
      tc001RateLimitStep res = .passed ∧
      (rateLimitProbe res).2.2 * tc001SleepSeconds = j * tc001SleepSeconds) ∧
    ((∀ k, k < tc001MaxAttempts → res k ≠ 429) →
      rateLimitProbe res = (false, tc001MaxAttempts, tc001MaxAttempts) ∧
      tc001RateLimitStep res =
        .failed "Rate limit not enforced after multiple invalid login attempts") := by
  constructor
  · intro j hj hmiss hhit
    have hprobe : rateLimitProbe res = (true, j + 1, j) := by
      unfold rateLimitProbe
      apply probeFrom_hit res j tc001MaxAttempts 0 hj
      · intro k hk; simpa using hmiss k hk
      · simpa using hhit
    refine ⟨hprobe, ?_, by rw [hprobe]⟩
    simp [tc001RateLimitStep, hprobe]
  · intro hmiss
    have hprobe : rateLimitProbe res = (false, tc001MaxAttempts, tc001MaxAttempts) := by
      unfold rateLimitProbe
      apply probeFrom_exhaust
      intro k hk; simpa using hmiss k hk
    refine ⟨hprobe, ?_⟩
    simp [tc001RateLimitStep, hprobe]

/-- Witness for C1: with the server answering 401 three times and then 429,
the probe stops after 4 requests and 3 pauses; with the server never
answering 429, the probe issues all 10 requests and the step fails. -/
theorem tc001_rate_limit_probe_witness :
    (rateLimitProbe (fun k => if k = 3 then 429 else 401) = (true, 4, 3) ∧
      tc001RateLimitStep (fun k => if k = 3 then 429 else 401) = .passed) ∧
    (rateLimitProbe (fun _ => 401) = (false, 10, 10) ∧
      tc001RateLimitStep (fun _ => 401) =
        .failed "Rate limit not enforced after multiple invalid login attempts") := by
  constructor
  · have h := (tc001_rate_limit_probe (fun k => if k = 3 then 429 else 401)).1 3
      (by decide) (by decide) (by decide)
    exact ⟨h.1, h.2.1⟩
  · have h := (tc001_rate_limit_probe (fun _ => 401)).2 (by decide)
    exact h

/-! ## Case-insensitive substring check

`TC002_user_registration_process.py` tolerates a duplicate-user 400:

```python
if response.status_code == 400 and "already" in response.text.lower():
    pass
else:
    raise
```
-/

/-- Executable substring test on character lists: does `needle` occur
contiguously inside the second list? -/
def listHasSub (needle : List Char) : List Char → Bool
  | [] => needle.isEmpty
  | c :: t => needle.isPrefixOf (c :: t) || listHasSub needle t

/-- `listHasSub` decides the `List.IsInfix` relation. -/
theorem listHasSub_iff_infix (n : List Char) :
    ∀ h : List Char, listHasSub n h = true ↔ n <:+: h := by
  intro h
  induction h with
  | nil => simp [listHasSub, List.isEmpty_iff]
  | cons c t ih =>
    rw [List.infix_cons_iff]
    simp [listHasSub, List.isPrefixOf_iff_prefix, ih]

/-- Python `"already" in response.text.lower()` from TC002; lowercasing is
per character, as `String.toLower` does. -/
def textSaysAlready (text : String) : Bool :=
  listHasSub "already".toList (text.toList.map Char.toLower)

/-- The first registration step of TC002: `assert status == 201` with an
`except AssertionError` that re-raises unless the status is 400 and the
body mentions "already". -/
def tc002RegisterStepPasses (status : Nat) (text : String) : Bool :=
  if status = 201 then true
  else if status = 400 then textSaysAlready text
  else false

/-- The registration step of TC004:
`assert r.status_code == 201 or r.status_code == 400`. -/
def tc004RegisterStepPasses (status : Nat) : Bool :=
  status == 201 || status == 400

/-- The C9 claim's acceptance condition, written from the claim: a 201, or a
400 whose body contains "already" case-insensitively. -/
def spec_c9_pass (status : Nat) (text : String) : Prop :=
  status = 201 ∨ (status = 400 ∧ "already".toList <:+: text.toList.map Char.toLower)

/-- C9: TC002's valid-payload registration step passes exactly on a 201, or
on a 400 whose body contains the substring "already" case-insensitively;
any other status, or a 400 without that substring, fails the scenario. -/
theorem tc002_register_acceptance (status : Nat) (text : String) :
    tc002RegisterStepPasses status text = true ↔ spec_c9_pass status text := by
  unfold tc002RegisterStepPasses spec_c9_pass
  by_cases h201 : status = 201
  · simp [h201]
  · by_cases h400 : status = 400
    · simp [h201, h400, textSaysAlready, listHasSub_iff_infix]
    · simp [h201, h400]

/-- C7: the registration steps accept a set of status codes rather than a
single one: TC002 passes on 201 and on a 400 whose body says "already"
(and on nothing outside {201, 400}); TC004 passes on 201 and on 400 (and
on nothing else). -/
theorem register_steps_accept_sets :
    (∀ t, tc002RegisterStepPasses 201 t = true) ∧
    (∀ t, textSaysAlready t = true → tc002RegisterStepPasses 400 t = true) ∧
    (∀ s t, tc002RegisterStepPasses s t = true → s = 201 ∨ s = 400) ∧
    tc004RegisterStepPasses 201 = true ∧
    tc004RegisterStepPasses 400 = true ∧
    (∀ s, tc004RegisterStepPasses s = true → s = 201 ∨ s = 400) := by
  refine ⟨fun t => by simp [tc002RegisterStepPasses], ?_, ?_, by decide, by decide, ?_⟩
  · intro t ht
    simp [tc002RegisterStepPasses, ht]
  · intro s t h
    unfold tc002RegisterStepPasses at h
    by_cases h201 : s = 201
    · exact Or.inl h201
    · by_cases h400 : s = 400
      · exact Or.inr h400
      · simp [h201, h400] at h
  · intro s h
    unfold tc004RegisterStepPasses at h
    rcases Bool.or_eq_true_iff.mp h with h' | h'
    · exact Or.inl (by simpa using h')
    · exact Or.inr (by simpa using h')

/-- Witness for C7: a duplicate-user 400 body passes TC002's registration
step, a plain 201 passes it, and 400 passes TC004's. -/
theorem register_steps_accept_sets_witness :
    tc002RegisterStepPasses 201 "" = true ∧
    tc002RegisterStepPasses 400 "User already exists" = true ∧
    tc004RegisterStepPasses 400 = true := by
  refine ⟨register_steps_accept_sets.1 "", ?_, register_steps_accept_sets.2.2.2.2.1⟩
  exact register_steps_accept_sets.2.1 "User already exists" (by decide)

/-! ## Access-token extraction from login responses (C4)

The scripts disagree on which JSON key they read:

* TC005: `login_data.get("token") or login_data.get("accessToken")`, then
  `assert token is not None`;
* TC010: `resp.json().get("token") or resp.json().get("accessToken")`, then
  `assert token`;
* TC006: `login_resp.json().get("token")`, then `assert token`;
* TC007: `login_resp.json().get("token")`, then `assert auth_token`;
* TC008: `auth_data.get("token")`, then `assert token is not None`;
* TC004 (refresh token): key ladder `refreshToken`, `refresh_token`, with a
  hard failure when only `token` is present.
-/

/-- The keys of a login response body that the scripts read. -/
structure LoginJson where
  token : Option String
  accessToken : Option String
deriving DecidableEq, Repr

/-- TC005 token extraction: `get("token") or get("accessToken")`. -/
def tc005Token (j : LoginJson) : Option String := pyOrStr j.token j.accessToken

/-- TC010 token extraction: `get("token") or get("accessToken")`. -/
def tc010Token (j : LoginJson) : Option String := pyOrStr j.token j.accessToken

/-- TC006 token extraction: `get("token")` only. -/
def tc006Token (j : LoginJson) : Option String := j.token

/-- TC007 token extraction: `get("token")` only. -/
def tc007Token (j : LoginJson) : Option String := j.token

/-- TC008 token extraction: `get("token")` only. -/
def tc008Token (j : LoginJson) : Option String := j.token

/-- TC005's check on the extracted token: `assert token is not None`. -/
def tc005LoginStepOk (j : LoginJson) : Bool := (tc005Token j).isSome

/-- TC006's check on the extracted token: `assert token` (truthiness). -/
def tc006LoginStepOk (j : LoginJson) : Bool := strTruthy (tc006Token j)

/-- TC007's check on the extracted token: `assert auth_token` (truthiness). -/
def tc007LoginStepOk (j : LoginJson) : Bool := strTruthy (tc007Token j)

/-- TC008's check on the extracted token: `assert token is not None`. -/
def tc008LoginStepOk (j : LoginJson) : Bool := (tc008Token j).isSome

/-- TC010's check on the extracted token: `assert token` (truthiness). -/
def tc010LoginStepOk (j : LoginJson) : Bool := strTruthy (tc010Token j)

/-- The keys of TC004's login response body that the script reads:
`token`, `refreshToken` (camel case) and `refresh_token` (snake case). -/
structure RefreshJson where
  token : Option String
  refreshTokenCamel : Option String
  refreshTokenSnake : Option String
deriving DecidableEq, Repr

/-- TC004's refresh-token extraction ladder: `refreshToken` if present, else
`refresh_token`, else no refresh token. -/
def tc004RefreshToken (j : RefreshJson) : Option String :=
  if j.refreshTokenCamel.isSome then j.refreshTokenCamel
  else if j.refreshTokenSnake.isSome then j.refreshTokenSnake
  else none

/-- TC004's login step as it handles the response body: first
`assert "refreshToken" in resp or "refresh_token" in resp or "token" in resp`,
then the ladder, where both the token-only branch and the fall-through branch
`assert False`. -/
def tc004RefreshStepOk (j : RefreshJson) : Bool :=
  if j.refreshTokenCamel.isSome || j.refreshTokenSnake.isSome || j.token.isSome then
    if j.refreshTokenCamel.isSome then true
    else if j.refreshTokenSnake.isSome then true
    else false
  else false

/-- Counterexample to C4: a login response carrying the access token under
the `accessToken` key only (one of the two keys the claim says every
scenario accepts) fails the extraction of TC006 and TC007, while TC005
extracts it fine. -/
theorem tc00x_token_extraction_counterexample :
    tc005LoginStepOk ⟨none, some "jwt-value"⟩ = true ∧
    tc005Token ⟨none, some "jwt-value"⟩ = some "jwt-value" ∧
    tc006LoginStepOk ⟨none, some "jwt-value"⟩ = false ∧
    tc007LoginStepOk ⟨none, some "jwt-value"⟩ = false ∧
    tc008LoginStepOk ⟨none, some "jwt-value"⟩ = false := by
  decide

/-- C4 amended: TC005 and TC010 accept the access token under either
`token` or `accessToken`, and TC004 accepts the refresh token under either
`refreshToken` or `refresh_token`; but TC006, TC007 and TC008 read only the
`token` key, so a response carrying the token only under `accessToken`
fails their extraction. -/
theorem tc00x_token_extraction (t : String) (ht : t ≠ "") :
    tc005LoginStepOk ⟨some t, none⟩ = true ∧
    tc005LoginStepOk ⟨none, some t⟩ = true ∧
    tc010LoginStepOk ⟨some t, none⟩ = true ∧
    tc010LoginStepOk ⟨none, some t⟩ = true ∧
    tc004RefreshStepOk ⟨none, some t, none⟩ = true ∧
    tc004RefreshStepOk ⟨none, none, some t⟩ = true ∧
    tc004RefreshToken ⟨none, some t, none⟩ = some t ∧
    tc004RefreshToken ⟨none, none, some t⟩ = some t ∧
    tc006LoginStepOk ⟨some t, none⟩ = true ∧
    tc006LoginStepOk ⟨none, some t⟩ = false ∧
    tc007LoginStepOk ⟨some t, none⟩ = true ∧
    tc007LoginStepOk ⟨none, some t⟩ = false ∧
    tc008LoginStepOk ⟨some t, none⟩ = true ∧
    tc008LoginStepOk ⟨none, some t⟩ = false := by
  simp [tc005LoginStepOk, tc006LoginStepOk, tc007LoginStepOk, tc008LoginStepOk,
    tc010LoginStepOk, tc005Token, tc006Token, tc007Token, tc008Token, tc010Token,
    tc004RefreshStepOk, tc004RefreshToken, pyOrStr, strTruthy, ht]

/-- Witness for the amended C4 at the concrete token value "jwt-value". -/
theorem tc00x_token_extraction_witness :
    tc005LoginStepOk ⟨some "jwt-value", none⟩ = true ∧
    tc006LoginStepOk ⟨none, some "jwt-value"⟩ = false := by
  have h := tc00x_token_extraction "jwt-value" (by decide)
  exact ⟨h.1, h.2.2.2.2.2.2.2.2.2.1⟩

/-! ## Usernames used for registration (C5)

The run's randomness (`uuid.uuid4().hex`) is a parameter; a script that
never calls `uuid` yields the same username on every run.

* TC006: `TEST_USERNAME = f"testuser_{uuid.uuid4().hex[:8]}"`;
* TC002: `"username": "testuser_tc002"` (fixed);
* TC004: `"username": "testuser_jwt_refresh"` (fixed);
* TC007: `test_username = "testuser_tc007"` (fixed);
* TC010: `TEST_USERNAME = "testuser_tc010"` (fixed).
-/

/-- TC006's username: `testuser_` followed by the first 8 hex digits of the
run's uuid. -/
def tc006_TEST_USERNAME (uuidHex : String) : String :=
  "testuser_" ++ ⟨uuidHex.toList.take 8⟩

/-- TC006's email: the username at the example.com domain. -/
def tc006_TEST_EMAIL (uuidHex : String) : String :=
  tc006_TEST_USERNAME uuidHex ++ "@example.com"

/-- TC002's registration username, fixed regardless of the run. -/
def tc002_username (_uuidHex : String) : String := "testuser_tc002"

/-- TC004's registration username, fixed regardless of the run. -/
def tc004_username (_uuidHex : String) : String := "testuser_jwt_refresh"

/-- TC007's registration username, fixed regardless of the run. -/
def tc007_username (_uuidHex : String) : String := "testuser_tc007"

/-- TC010's registration username, fixed regardless of the run. -/
def tc010_TEST_USERNAME (_uuidHex : String) : String := "testuser_tc010"

/-- Counterexample to C5: TC010 and TC002 register users, yet two runs with
different uuids produce identical usernames — the name carries no
randomized suffix unique to the run. -/
theorem fixed_username_counterexample :
    tc010_TEST_USERNAME "0f0f0f0f2a2a2a2a" = tc010_TEST_USERNAME "deadbeefdeadbeef" ∧
    tc002_username "0f0f0f0f2a2a2a2a" = tc002_username "deadbeefdeadbeef" ∧
    tc007_username "0f0f0f0f2a2a2a2a" = tc007_username "deadbeefdeadbeef" ∧
    tc004_username "0f0f0f0f2a2a2a2a" = tc004_username "deadbeefdeadbeef" ∧
    ("0f0f0f0f2a2a2a2a" : String) ≠ "deadbeefdeadbeef" := by
  decide

/-- C5 amended: only TC006 builds its username (and email) from the run's
uuid — two runs agreeing on a TC006 username agree on the first 8 uuid
characters — while the registering scenarios TC002, TC004, TC007 and TC010
use fixed usernames identical across runs. -/
theorem registration_usernames (u v : String) :
    tc002_username u = "testuser_tc002" ∧
    tc004_username u = "testuser_jwt_refresh" ∧
    tc007_username u = "testuser_tc007" ∧
    tc010_TEST_USERNAME u = "testuser_tc010" ∧
    tc006_TEST_USERNAME u = "testuser_" ++ ⟨u.toList.take 8⟩ ∧
    (tc006_TEST_USERNAME u = tc006_TEST_USERNAME v → u.toList.take 8 = v.toList.take 8) := by
  refine ⟨rfl, rfl, rfl, rfl, rfl, ?_⟩
  intro h
  have hdata := congrArg String.data h
  simp only [tc006_TEST_USERNAME, String.data_append] at hdata
  exact List.append_cancel_left hdata

/-- Witness for the amended C5: two uuids sharing their first 8 characters
give the same TC006 username, and the theorem recovers that shared prefix. -/
theorem registration_usernames_witness :
    tc002_username "0123456789abcdef" = "testuser_tc002" ∧
    ("0123456789abcdef" : String).toList.take 8 = ("01234567aaaaaaaa" : String).toList.take 8 := by
  have h := registration_usernames "0123456789abcdef" "01234567aaaaaaaa"
  exact ⟨h.1, h.2.2.2.2.2 (by decide)⟩

/-! ## TC010: end-to-end purchase scenario

`TC010_purchase_placement_with_billing.py` is a `try` body of eight
request-and-assert steps followed by a `finally` cleanup block.  The
environment lists the server's responses to each step; the run returns the
outcome, the main-flow requests issued (in order), and the cleanup delete
requests issued (in order).  The cleanup wraps each delete in
`try: ... except Exception: pass`, so the delete responses
(`deleteLinkResult` and friends) are carried in the environment but never
read by the run. -/

/-- Main-flow requests of TC010, in source order. -/
inductive RTag where
  | register
  | login
  | createProject
  | createSite
  | addLink
  | deposit
  | balanceCheck
  | purchase
deriving DecidableEq, Repr

/-- The declared order of TC010's main-flow steps. -/
def tc010StepOrder : List RTag :=
  [.register, .login, .createProject, .createSite, .addLink, .deposit,
   .balanceCheck, .purchase]

/-- Cleanup delete requests of TC010, in source order. -/
inductive CTag where
  | deleteLink
  | deleteProject
  | deleteSite
deriving DecidableEq, Repr

/-- A response body holding a resource id under a primary key (`id`) or an
alternative key (`projectId` for the project, `linkId` for the link). -/
structure IdJson where
  id : Option Nat
  altId : Option Nat
deriving DecidableEq, Repr

/-- The server responses TC010's run consumes. -/
structure TC010Env where
  registerStatus : Nat
  loginStatus : Nat
  loginJson : LoginJson
  projectStatus : Nat
  projectJson : IdJson
  siteStatus : Nat
  siteIdField : Option Nat
  linkStatus : Nat
  linkJson : IdJson
  depositStatus : Nat
  balanceStatus : Nat
  balanceField : Option Int
  purchaseStatus : Nat
  purchaseHasPlacementId : Bool
  purchaseHasId : Bool
  purchaseMessage : Option String
  purchaseText : String
  deleteLinkResult : Option Nat
  deleteProjectResult : Option Nat
  deleteSiteResult : Option Nat
deriving DecidableEq, Repr

/-- The script's mutable variables read by the cleanup block:
`auth_token`, `project_id`, `site_id`, `link_id` (all initialized `None`). -/
structure TC010State where
  authToken : Option String
  projectId : Option Nat
  siteId : Option Nat
  linkId : Option Nat
deriving DecidableEq, Repr

/-- The `assert balance is not None and balance > 0` test of TC010 step 7. -/
def balancePositive : Option Int → Bool
  | none => false
  | some b => decide (0 < b)

/-- Step 9 of TC010, validating the purchase response: a 200 must carry
`placementId` or `id`; a 400 fails with the server's `message` field (or the
raw body text when absent); anything else fails as unexpected. -/
def tc010PurchaseOutcome (e : TC010Env) : Outcome :=
  if e.purchaseStatus = 200 then
    if e.purchaseHasPlacementId || e.purchaseHasId then .passed
    else .failed "Purchase response missing placementId"
  else if e.purchaseStatus = 400 then
    .failed ("Purchase failed with 400 error: " ++ e.purchaseMessage.getD e.purchaseText)
  else .failed "Unexpected status code on purchase"

/-- The `try` body of TC010: eight steps in declared order, stopping at the
first failed assertion.  Returns the outcome, the variable state the
`finally` block will see, and the main-flow requests issued.  The token and
the ids appearing in the states below are the script's `auth_token`,
`project_id`, `site_id`, `link_id` assignments (each made before the
`assert` on it, hence present in the state even when that assert fails). -/
def tc010Body (e : TC010Env) : Outcome × TC010State × List RTag :=
  if e.registerStatus = 201 then
    if e.loginStatus = 200 then
      if strTruthy (pyOrStr e.loginJson.token e.loginJson.accessToken) then
        if e.projectStatus = 201 then
          if (pyOrNat e.projectJson.id e.projectJson.altId).isSome then
            if e.siteStatus = 201 then
              if e.siteIdField.isSome then
                if e.linkStatus = 201 then
                  if (pyOrNat e.linkJson.id e.linkJson.altId).isSome then
                    if e.depositStatus = 200 then
                      if e.balanceStatus = 200 then
                        if balancePositive e.balanceField then
                          (tc010PurchaseOutcome e,
                            ⟨pyOrStr e.loginJson.token e.loginJson.accessToken,
                             pyOrNat e.projectJson.id e.projectJson.altId,
                             e.siteIdField,
                             pyOrNat e.linkJson.id e.linkJson.altId⟩,
                            tc010StepOrder)
                        else
                          (.failed "Insufficient balance for purchase test",
                            ⟨pyOrStr e.loginJson.token e.loginJson.accessToken,
                             pyOrNat e.projectJson.id e.projectJson.altId,
                             e.siteIdField,
                             pyOrNat e.linkJson.id e.linkJson.altId⟩,
                            [.register, .login, .createProject, .createSite,
                             .addLink, .deposit, .balanceCheck])
                      else
                        (.failed "Get balance failed",
                          ⟨pyOrStr e.loginJson.token e.loginJson.accessToken,
                           pyOrNat e.projectJson.id e.projectJson.altId,
                           e.siteIdField,
                           pyOrNat e.linkJson.id e.linkJson.altId⟩,
                          [.register, .login, .createProject, .createSite,
                           .addLink, .deposit, .balanceCheck])
                    else
                      (.failed "Deposit failed",
                        ⟨pyOrStr e.loginJson.token e.loginJson.accessToken,
                         pyOrNat e.projectJson.id e.projectJson.altId,
                         e.siteIdField,
                         pyOrNat e.linkJson.id e.linkJson.altId⟩,
                        [.register, .login, .createProject, .createSite,
                         .addLink, .deposit])
                  else
                    (.failed "Link ID missing after creation",
                      ⟨pyOrStr e.loginJson.token e.loginJson.accessToken,
                       pyOrNat e.projectJson.id e.projectJson.altId,
                       e.siteIdField,
                       pyOrNat e.linkJson.id e.linkJson.altId⟩,
                      [.register, .login, .createProject, .createSite, .addLink])
                else
                  (.failed "Adding link failed",
                    ⟨pyOrStr e.loginJson.token e.loginJson.accessToken,
                     pyOrNat e.projectJson.id e.projectJson.altId,
                     e.siteIdField, none⟩,
                    [.register, .login, .createProject, .createSite, .addLink])
              else
                (.failed "Site ID missing after creation",
                  ⟨pyOrStr e.loginJson.token e.loginJson.accessToken,
                   pyOrNat e.projectJson.id e.projectJson.altId,
                   e.siteIdField, none⟩,
                  [.register, .login, .createProject, .createSite])
            else
              (.failed "Site creation failed",
                ⟨pyOrStr e.loginJson.token e.loginJson.accessToken,
                 pyOrNat e.projectJson.id e.projectJson.altId, none, none⟩,
                [.register, .login, .createProject, .createSite])
          else
            (.failed "Project ID missing after creation",
              ⟨pyOrStr e.loginJson.token e.loginJson.accessToken,
               pyOrNat e.projectJson.id e.projectJson.altId, none, none⟩,
              [.register, .login, .createProject])
        else
          (.failed "Project creation failed",
            ⟨pyOrStr e.loginJson.token e.loginJson.accessToken, none, none, none⟩,
            [.register, .login, .createProject])
      else
        (.failed "No token received on login", ⟨none, none, none, none⟩,
          [.register, .login])
    else
      (.failed "User login failed", ⟨none, none, none, none⟩,
        [.register, .login])
  else
    (.failed "User registration failed", ⟨none, none, none, none⟩, [.register])

/-- TC010's `finally` block: with a truthy `auth_token`, delete the link
(when `link_id and project_id` is truthy), then the project (when
`project_id` is truthy), then the site (when `site_id` is truthy); each
delete's own failure is swallowed by `except Exception: pass`. -/
def tc010CleanupTags (s : TC010State) : List CTag :=
  if strTruthy s.authToken then
    (if natTruthy s.linkId && natTruthy s.projectId then [CTag.deleteLink] else []) ++
    (if natTruthy s.projectId then [CTag.deleteProject] else []) ++
    (if natTruthy s.siteId then [CTag.deleteSite] else [])
  else []

/-- The variable state TC010's `finally` block observes. -/
def tc010FinalState (e : TC010Env) : TC010State := (tc010Body e).2.1

/-- A full TC010 run: the body's outcome (cleanup never changes it), the
main-flow requests, and the cleanup requests. -/
def tc010Run (e : TC010Env) : Outcome × List RTag × List CTag :=
  ((tc010Body e).1, (tc010Body e).2.2, tc010CleanupTags (tc010FinalState e))

/-- A truthy optional string is present. -/
theorem strTruthy_isSome {o : Option String} (h : strTruthy o = true) : o.isSome = true := by
  cases o <;> simp_all [strTruthy]

/-- A truthy optional id is present. -/
theorem natTruthy_isSome {o : Option Nat} (h : natTruthy o = true) : o.isSome = true := by
  cases o <;> simp_all [natTruthy]

/-- In every run of TC010 the main-flow requests issued are a prefix of the
declared step order: steps execute strictly in order, stopping at the first
failure. -/
theorem tc010_reqs_ordered (e : TC010Env) : (tc010Body e).2.2 <+: tc010StepOrder := by
  by_cases h1 : e.registerStatus = 201
  case neg => simp [tc010Body, *]; all_goals decide
  by_cases h2 : e.loginStatus = 200
  case neg => simp [tc010Body, *]; all_goals decide
  by_cases h3 : strTruthy (pyOrStr e.loginJson.token e.loginJson.accessToken) = true
  case neg => simp [tc010Body, *]; all_goals decide
  by_cases h4 : e.projectStatus = 201
  case neg => simp [tc010Body, *]; all_goals decide
  by_cases h5 : (pyOrNat e.projectJson.id e.projectJson.altId).isSome = true
  case neg => simp [tc010Body, *]; all_goals decide
  by_cases h6 : e.siteStatus = 201
  case neg => simp [tc010Body, *]; all_goals decide
  by_cases h7 : e.siteIdField.isSome = true
  case neg => simp [tc010Body, *]; all_goals decide
  by_cases h8 : e.linkStatus = 201
  case neg => simp [tc010Body, *]; all_goals decide
  by_cases h9 : (pyOrNat e.linkJson.id e.linkJson.altId).isSome = true
  case neg => simp [tc010Body, *]; all_goals decide
  by_cases h10 : e.depositStatus = 200
  case neg => simp [tc010Body, *]; all_goals decide
  by_cases h11 : e.balanceStatus = 200
  case neg => simp [tc010Body, *]; all_goals decide
  by_cases h12 : balancePositive e.balanceField = true
  case neg => simp [tc010Body, *]; all_goals decide
  case pos => simp [tc010Body, *]

/-- An environment in which every TC010 step succeeds: server ids 5, 7, 9,
a deposit of 100, and a 200 purchase response carrying `placementId`. -/
def tc010HappyEnv : TC010Env :=
  { registerStatus := 201, loginStatus := 200, loginJson := ⟨some "jwt-tok", none⟩,
    projectStatus := 201, projectJson := ⟨some 5, none⟩,
    siteStatus := 201, siteIdField := some 7,
    linkStatus := 201, linkJson := ⟨some 9, none⟩,
    depositStatus := 200, balanceStatus := 200, balanceField := some 100,
    purchaseStatus := 200, purchaseHasPlacementId := true, purchaseHasId := false,
    purchaseMessage := none, purchaseText := "",
    deleteLinkResult := some 200, deleteProjectResult := some 200,
    deleteSiteResult := some 200 }

/-- The happy environment except that the server answers the project
creation with a 201 whose body is the JSON object with `id` equal to `0`. -/
def tc010ZeroIdEnv : TC010Env := { tc010HappyEnv with projectJson := ⟨some 0, none⟩ }

/-- The happy environment except that the login is answered 401. -/
def tc010NoTokenEnv : TC010Env := { tc010HappyEnv with loginStatus := 401 }

/-- The happy environment except that the purchase is answered 400 with the
message "Insufficient balance". -/
def tc010Insufficient400Env : TC010Env :=
  { tc010HappyEnv with
    purchaseStatus := 400
    purchaseMessage := some "Insufficient balance" }

/-- C8: TC010 performs register, login, create project, create site, add
link, deposit, balance check, purchase, strictly in this order (every run's
request list is a prefix of it, and a run passing the first seven steps
issues exactly this list); the purchase uses the captured project, site and
link ids held in the final state; a 200 response carrying a placement
identifier passes, a 200 without one fails, and a 400 fails surfacing the
server's `message` field (or the raw body when absent). -/
theorem tc010_purchase_flow (e : TC010Env)
    (h1 : e.registerStatus = 201) (h2 : e.loginStatus = 200)
    (h3 : strTruthy (pyOrStr e.loginJson.token e.loginJson.accessToken) = true)
    (h4 : e.projectStatus = 201)
    (h5 : (pyOrNat e.projectJson.id e.projectJson.altId).isSome = true)
    (h6 : e.siteStatus = 201) (h7 : e.siteIdField.isSome = true)
    (h8 : e.linkStatus = 201)
    (h9 : (pyOrNat e.linkJson.id e.linkJson.altId).isSome = true)
    (h10 : e.depositStatus = 200) (h11 : e.balanceStatus = 200)
    (h12 : balancePositive e.balanceField = true) :
    (∀ f : TC010Env, (tc010Body f).2.2 <+: tc010StepOrder) ∧
    (tc010Run e).2.1 = tc010StepOrder ∧
    tc010FinalState e = ⟨pyOrStr e.loginJson.token e.loginJson.accessToken,
      pyOrNat e.projectJson.id e.projectJson.altId, e.siteIdField,
      pyOrNat e.linkJson.id e.linkJson.altId⟩ ∧
    (e.purchaseStatus = 200 → (e.purchaseHasPlacementId || e.purchaseHasId) = true →
      (tc010Run e).1 = .passed) ∧
    (e.purchaseStatus = 200 → (e.purchaseHasPlacementId || e.purchaseHasId) = false →
      (tc010Run e).1 = .failed "Purchase response missing placementId") ∧
    (e.purchaseStatus = 400 →
      (tc010Run e).1 = .failed ("Purchase failed with 400 error: " ++
        e.purchaseMessage.getD e.purchaseText)) := by
  refine ⟨tc010_reqs_ordered, ?_, ?_, ?_, ?_, ?_⟩
  · simp [tc010Run, tc010Body, *]
  · simp [tc010FinalState, tc010Body, *]
  · intro hp hq
    simp [tc010Run, tc010Body, tc010PurchaseOutcome, *]
  · intro hp hq
    simp [tc010Run, tc010Body, tc010PurchaseOutcome, *]
  · intro hp
    by_cases h200 : e.purchaseStatus = 200
    · omega
    · simp [tc010Run, tc010Body, tc010PurchaseOutcome, *]

/-- Witness for C8: in the happy environment the run issues the eight steps
in order and passes; with a 400 purchase response the run fails surfacing
the server's message. -/
theorem tc010_purchase_flow_witness :
    (tc010Run tc010HappyEnv).2.1 = tc010StepOrder ∧
    (tc010Run tc010HappyEnv).1 = .passed ∧
    (tc010Run tc010Insufficient400Env).1 =
      .failed "Purchase failed with 400 error: Insufficient balance" := by
  have h := tc010_purchase_flow tc010HappyEnv rfl rfl (by decide) rfl (by decide)
    rfl (by decide) rfl (by decide) rfl rfl (by decide)
  have h400 := tc010_purchase_flow tc010Insufficient400Env rfl rfl (by decide) rfl
    (by decide) rfl (by decide) rfl (by decide) rfl rfl (by decide)
  refine ⟨h.2.1, h.2.2.2.1 rfl (by decide), ?_⟩
  simpa using h400.2.2.2.2.2 rfl

/-- Counterexample to C3: in `tc010ZeroIdEnv` the server answers the
project-creation request with 201 and the body `id = 0`, so the run did
create a project; yet Python's `project.get("id") or project.get("projectId")`
turns the id `0` into `None`, the scenario stops, and the cleanup block —
whose guards use truthiness — issues no delete request at all: the cleanup
of the created project executes zero times, not exactly once. -/
theorem tc010_cleanup_skipped_counterexample :
    tc010ZeroIdEnv.projectStatus = 201 ∧
    RTag.createProject ∈ (tc010Run tc010ZeroIdEnv).2.1 ∧
    (tc010Run tc010ZeroIdEnv).1 = .failed "Project ID missing after creation" ∧
    (tc010Run tc010ZeroIdEnv).2.2 = [] := by
  decide

/-- C3 amended: whatever the outcome (pass or fail), TC010's cleanup
requests are a subsequence of delete-link, delete-project, delete-site — the
reverse-dependency order, each at most once — and each delete executes
exactly once when the auth token and the identifiers its guard reads are
truthy (nonzero, nonempty), zero times otherwise; a resource captured with a
falsy identifier (such as id 0) is never cleaned up. -/
theorem tc010_cleanup_reverse_order (e : TC010Env) :
    List.Sublist (tc010Run e).2.2 [CTag.deleteLink, CTag.deleteProject, CTag.deleteSite] ∧
    (tc010Run e).2.2.count CTag.deleteLink =
      (if strTruthy (tc010FinalState e).authToken &&
          (natTruthy (tc010FinalState e).linkId &&
           natTruthy (tc010FinalState e).projectId) then 1 else 0) ∧
    (tc010Run e).2.2.count CTag.deleteProject =
      (if strTruthy (tc010FinalState e).authToken &&
          natTruthy (tc010FinalState e).projectId then 1 else 0) ∧
    (tc010Run e).2.2.count CTag.deleteSite =
      (if strTruthy (tc010FinalState e).authToken &&
          natTruthy (tc010FinalState e).siteId then 1 else 0) := by
  suffices h : ∀ s : TC010State,
      List.Sublist (tc010CleanupTags s) [CTag.deleteLink, CTag.deleteProject, CTag.deleteSite] ∧
      (tc010CleanupTags s).count CTag.deleteLink =
        (if strTruthy s.authToken &&
            (natTruthy s.linkId && natTruthy s.projectId) then 1 else 0) ∧
      (tc010CleanupTags s).count CTag.deleteProject =
        (if strTruthy s.authToken && natTruthy s.projectId then 1 else 0) ∧
      (tc010CleanupTags s).count CTag.deleteSite =
        (if strTruthy s.authToken && natTruthy s.siteId then 1 else 0) by
    exact h (tc010FinalState e)
  intro s
  by_cases ha : strTruthy s.authToken = true <;>
  by_cases hl : natTruthy s.linkId = true <;>
  by_cases hp : natTruthy s.projectId = true <;>
  by_cases hsi : natTruthy s.siteId = true <;>
  simp_all [tc010CleanupTags, List.count_cons] <;> decide

/-- C10: TC010's cleanup issues a delete only for resources whose identifier
(and the auth token) was captured during the run: with no token no cleanup
request is issued at all, the link delete requires both the link and the
project ids, and no delete is ever issued with a missing identifier. -/
theorem tc010_cleanup_only_captured (e : TC010Env) :
    (strTruthy (tc010FinalState e).authToken = false → (tc010Run e).2.2 = []) ∧
    (CTag.deleteLink ∈ (tc010Run e).2.2 →
      (tc010FinalState e).authToken.isSome = true ∧
      (tc010FinalState e).linkId.isSome = true ∧
      (tc010FinalState e).projectId.isSome = true) ∧
    (CTag.deleteProject ∈ (tc010Run e).2.2 →
      (tc010FinalState e).authToken.isSome = true ∧
      (tc010FinalState e).projectId.isSome = true) ∧
    (CTag.deleteSite ∈ (tc010Run e).2.2 →
      (tc010FinalState e).authToken.isSome = true ∧
      (tc010FinalState e).siteId.isSome = true) ∧
    ((tc010FinalState e).authToken = none → (tc010Run e).2.2 = []) := by
  suffices h : ∀ s : TC010State,
      (strTruthy s.authToken = false → tc010CleanupTags s = []) ∧
      (CTag.deleteLink ∈ tc010CleanupTags s →
        s.authToken.isSome = true ∧ s.linkId.isSome = true ∧ s.projectId.isSome = true) ∧
      (CTag.deleteProject ∈ tc010CleanupTags s →
        s.authToken.isSome = true ∧ s.projectId.isSome = true) ∧
      (CTag.deleteSite ∈ tc010CleanupTags s →
        s.authToken.isSome = true ∧ s.siteId.isSome = true) ∧
      (s.authToken = none → tc010CleanupTags s = []) by
    exact h (tc010FinalState e)
  intro s
  by_cases ha : strTruthy s.authToken = true <;>
  by_cases hl : natTruthy s.linkId = true <;>
  by_cases hp : natTruthy s.projectId = true <;>
  by_cases hsi : natTruthy s.siteId = true <;>
  simp_all [tc010CleanupTags, strTruthy_isSome, natTruthy_isSome, strTruthy]

/-- Witness for C10: with a failed login the run issues no cleanup request;
in the happy environment the site delete is issued and its id was captured. -/
theorem tc010_cleanup_only_captured_witness :
    (tc010Run tc010NoTokenEnv).2.2 = [] ∧
    (tc010FinalState tc010HappyEnv).authToken.isSome = true ∧
    (tc010FinalState tc010HappyEnv).siteId.isSome = true := by
  refine ⟨(tc010_cleanup_only_captured tc010NoTokenEnv).1 (by decide), ?_⟩
  have h := (tc010_cleanup_only_captured tc010HappyEnv).2.2.2.1 (by decide)
  exact h

/-! ## TC008: project creation and retrieval

`TC008_project_creation_and_retrieval.py` logs in outside the `try`, then
runs a `try` body (create project, list projects, check membership) whose
`finally` block deletes the created project when its id is truthy — and, on
a delete failure, `raise`s an `AssertionError` from inside the `finally`
block.  By Python semantics that exception **replaces** any in-flight
exception, so a cleanup failure overrides the primary failure. -/

/-- The server responses TC008's run consumes. -/
structure TC008Env where
  loginStatus : Nat
  loginJson : LoginJson
  createStatus : Nat
  createId1 : Option Nat
  createId2 : Option Nat
  createId3 : Option Nat
  listStatus : Nat
  listIsList : Bool
  listIds : List (Option Nat)
  deleteRaises : Bool
  deleteStatus : Nat
deriving DecidableEq, Repr

/-- The `try` body of TC008: create a project (201, id under `id`,
`projectId` or `project_id` coalesced by Python `or`), list projects (200, a
JSON list), and require the created id among the listed `id` fields.
Returns the body's outcome and the `created_project_id` variable. -/
def tc008TryBody (e : TC008Env) : Outcome × Option Nat :=
  if e.createStatus = 201 then
    if (pyOrNat e.createId1 (pyOrNat e.createId2 e.createId3)).isSome then
      if e.listStatus = 200 then
        if e.listIsList then
          if (pyOrNat e.createId1 (pyOrNat e.createId2 e.createId3)) ∈ e.listIds then
            (.passed, pyOrNat e.createId1 (pyOrNat e.createId2 e.createId3))
          else
            (.failed "Created project is not found in the projects list",
              pyOrNat e.createId1 (pyOrNat e.createId2 e.createId3))
        else
          (.failed "Projects list response is not a list",
            pyOrNat e.createId1 (pyOrNat e.createId2 e.createId3))
      else
        (.failed "Getting projects failed",
          pyOrNat e.createId1 (pyOrNat e.createId2 e.createId3))
    else
      (.failed "Created project ID not found in response",
        pyOrNat e.createId1 (pyOrNat e.createId2 e.createId3))
  else (.failed "Project creation failed", none)

/-- A full TC008 run: login (outside the `try`/`finally`), then the body,
then the `finally` block, whose `raise AssertionError("Cleanup failed ...")`
on a failed delete replaces the body's outcome. -/
def tc008Run (e : TC008Env) : Outcome :=
  if e.loginStatus = 200 then
    if (tc008Token e.loginJson).isSome then
      if natTruthy (tc008TryBody e).2 then
        if e.deleteRaises || !(e.deleteStatus = 200 : Bool) then .failed "Cleanup failed"
        else (tc008TryBody e).1
      else (tc008TryBody e).1
    else .failed "Authentication failed"
  else .failed "Authentication failed"

/-- TC008 environment in which the created project (id 5) is missing from
the project list — the primary failure — and the cleanup delete then
answers 500. -/
def tc008MaskEnv : TC008Env :=
  { loginStatus := 200, loginJson := ⟨some "jwt-tok", none⟩,
    createStatus := 201, createId1 := some 5, createId2 := none,
    createId3 := none, listStatus := 200, listIsList := true, listIds := [],
    deleteRaises := false, deleteStatus := 500 }

/-- Counterexample to C2: in `tc008MaskEnv` a step fails first (the created
project is absent from the list) and the cleanup delete also fails; TC008
reports the cleanup failure, replacing the primary failure. -/
theorem tc008_cleanup_masks_counterexample :
    (tc008TryBody tc008MaskEnv).1 =
      .failed "Created project is not found in the projects list" ∧
    tc008Run tc008MaskEnv = .failed "Cleanup failed" ∧
    tc008Run tc008MaskEnv ≠ (tc008TryBody tc008MaskEnv).1 := by
  decide

/-- C2 amended: TC010 logs-and-swallows cleanup failures, so its reported
outcome never depends on the cleanup responses and the first failure is
preserved; but TC008 `raise`s from its `finally` block, so whenever its
created id is truthy and the delete fails (non-200 or an exception), the
reported outcome is the cleanup failure regardless of the body's outcome. -/
theorem cleanup_failure_masking (e10 : TC010Env) (e8 : TC008Env)
    (a b c : Option Nat)
    (hlog : e8.loginStatus = 200) (htok : (tc008Token e8.loginJson).isSome = true)
    (hcreated : natTruthy (tc008TryBody e8).2 = true)
    (hfail : e8.deleteRaises = true ∨ e8.deleteStatus ≠ 200) :
    (tc010Run { e10 with
        deleteLinkResult := a
        deleteProjectResult := b
        deleteSiteResult := c }).1 = (tc010Run e10).1 ∧
    tc008Run e8 = .failed "Cleanup failed" := by
  constructor
  · cases e10
    rfl
  · unfold tc008Run
    rcases hfail with h | h <;> simp [hlog, htok, hcreated, h]

/-- Witness for the amended C2 at concrete environments: TC010's outcome is
unchanged when its delete responses are replaced, and TC008 reports the
cleanup failure. -/
theorem cleanup_failure_masking_witness :
    (tc010Run { tc010HappyEnv with
        deleteLinkResult := none
        deleteProjectResult := none
        deleteSiteResult := none }).1 =
      (tc010Run tc010HappyEnv).1 ∧
    tc008Run tc008MaskEnv = .failed "Cleanup failed" := by
  exact cleanup_failure_masking tc010HappyEnv tc008MaskEnv none none none
    rfl (by decide) (by decide) (Or.inr (by decide))

/-! ## Fixed 30-second timeout on every request (C6)

Every script defines `TIMEOUT = 30` and passes `timeout=TIMEOUT` at every
`requests.*` call site.  `allRequests` enumerates the 44 call sites of the
ten scripts with the timeout each passes.  `TC003_email_verification_mechanism.py`
additionally shows how a request exception is handled: the `except` clause
runs `assert False` — the step fails, and the failing request is not
reissued. -/

/-- One HTTP call site: what it requests and the timeout it passes. -/
structure ReqSpec where
  descr : String
  timeoutSeconds : Nat
deriving DecidableEq, Repr

/-- `TIMEOUT = 30` as defined at the top of every script. -/
def TIMEOUT : Nat := 30

/-- The three call sites of TC001. -/
def tc001Requests : List ReqSpec :=
  [⟨"POST /api/auth/login with valid credentials", TIMEOUT⟩,
   ⟨"POST /api/auth/login with invalid password", TIMEOUT⟩,
   ⟨"POST /api/auth/login rate-limit probe", TIMEOUT⟩]

/-- The five call sites of TC002. -/
def tc002Requests : List ReqSpec :=
  [⟨"POST /api/auth/register valid payload", TIMEOUT⟩,
   ⟨"POST /api/auth/register missing username", TIMEOUT⟩,
   ⟨"POST /api/auth/register missing email", TIMEOUT⟩,
   ⟨"POST /api/auth/register missing password", TIMEOUT⟩,
   ⟨"POST /api/auth/register invalid email", TIMEOUT⟩]

/-- The single call site of TC003 (looped over three invalid tokens). -/
def tc003Requests : List ReqSpec :=
  [⟨"GET /api/auth/verify-email/:token", TIMEOUT⟩]

/-- The four call sites of TC004. -/
def tc004Requests : List ReqSpec :=
  [⟨"POST /api/auth/register", TIMEOUT⟩,
   ⟨"POST /api/auth/login", TIMEOUT⟩,
   ⟨"POST /api/auth/refresh with valid refresh token", TIMEOUT⟩,
   ⟨"POST /api/auth/refresh with invalid refresh token", TIMEOUT⟩]

/-- The two call sites of TC005. -/
def tc005Requests : List ReqSpec :=
  [⟨"POST /api/auth/login", TIMEOUT⟩,
   ⟨"GET /api/users/profile", TIMEOUT⟩]

/-- The seven call sites of TC006. -/
def tc006Requests : List ReqSpec :=
  [⟨"POST /api/auth/register", TIMEOUT⟩,
   ⟨"POST /api/auth/login", TIMEOUT⟩,
   ⟨"GET /api/users/profile", TIMEOUT⟩,
   ⟨"PATCH /api/users/profile new email and display name", TIMEOUT⟩,
   ⟨"GET /api/users/profile after update", TIMEOUT⟩,
   ⟨"PATCH /api/users/profile invalid email", TIMEOUT⟩,
   ⟨"PATCH /api/users/profile without auth header", TIMEOUT⟩]

/-- The five call sites of TC007. -/
def tc007Requests : List ReqSpec :=
  [⟨"POST /api/auth/register", TIMEOUT⟩,
   ⟨"POST /api/auth/login", TIMEOUT⟩,
   ⟨"POST /api/users/change-password correct current password", TIMEOUT⟩,
   ⟨"POST /api/auth/login with new password", TIMEOUT⟩,
   ⟨"POST /api/users/change-password wrong current password", TIMEOUT⟩]

/-- The four call sites of TC008. -/
def tc008Requests : List ReqSpec :=
  [⟨"POST /api/auth/login", TIMEOUT⟩,
   ⟨"POST /api/projects", TIMEOUT⟩,
   ⟨"GET /api/projects", TIMEOUT⟩,
   ⟨"DELETE /api/projects/:id", TIMEOUT⟩]

/-- The two call sites of TC009. -/
def tc009Requests : List ReqSpec :=
  [⟨"POST /api/sites/register-from-wordpress valid data", TIMEOUT⟩,
   ⟨"POST /api/sites/register-from-wordpress invalid token", TIMEOUT⟩]

/-- The eleven call sites of TC010 (eight steps plus three cleanup deletes). -/
def tc010Requests : List ReqSpec :=
  [⟨"POST /api/auth/register", TIMEOUT⟩,
   ⟨"POST /api/auth/login", TIMEOUT⟩,
   ⟨"POST /api/projects", TIMEOUT⟩,
   ⟨"POST /api/sites", TIMEOUT⟩,
   ⟨"POST /api/projects/:id/links", TIMEOUT⟩,
   ⟨"POST /api/billing/deposit", TIMEOUT⟩,
   ⟨"GET /api/billing/balance", TIMEOUT⟩,
   ⟨"POST /api/billing/purchase", TIMEOUT⟩,
   ⟨"DELETE /api/projects/:pid/links/:lid", TIMEOUT⟩,
   ⟨"DELETE /api/projects/:id", TIMEOUT⟩,
   ⟨"DELETE /api/sites/:id", TIMEOUT⟩]

/-- Every HTTP call site of the ten scripts. -/
def allRequests : List ReqSpec :=
  tc001Requests ++ tc002Requests ++ tc003Requests ++ tc004Requests ++
  tc005Requests ++ tc006Requests ++ tc007Requests ++ tc008Requests ++
  tc009Requests ++ tc010Requests

/-- The three invalid tokens TC003 iterates over. -/
def tc003Tokens : List String :=
  ["invalidtoken123", "expiredtoken456", "!!@@##$$%%^^&&"]

/-- TC003's loop over invalid tokens.  `res i` is `none` when the `i`-th
request raises (timeout or connection failure) and `some s` when it returns
status `s`.  A raised request hits `assert False` (the step fails, nothing
is retried); a non-400 status fails the assertion; otherwise the loop
continues.  Returns the outcome and the number of requests issued. -/
def tc003Loop (res : Nat → Option Nat) : Nat → Nat → Outcome × Nat
  | _, 0 => (.passed, 0)
  | i, n + 1 =>
    match res i with
    | none => (.failed "Request failed", 1)
    | some s =>
      if s = 400 then
        ((tc003Loop res (i + 1) n).1, (tc003Loop res (i + 1) n).2 + 1)
      else (.failed "Expected status 400 for invalid token", 1)

/-- A TC003 run over its three tokens. -/
def tc003Run (res : Nat → Option Nat) : Outcome × Nat :=
  tc003Loop res 0 tc003Tokens.length

theorem tc003Loop_fail (res : Nat → Option Nat) :
    ∀ k n i, k < n → (∀ j, j < k → res (i + j) = some 400) → res (i + k) = none →
      tc003Loop res i n = (.failed "Request failed", k + 1) := by
  intro k
  induction k with
  | zero =>
    intro n i hn _ hfail
    match n, hn with
    | m + 1, _ =>
      simp only [Nat.add_zero] at hfail
      simp [tc003Loop, hfail]
  | succ p ih =>
    intro n i hn hok hfail
    match n, hn with
    | m + 1, hn =>
      have h0 : res i = some 400 := by
        have := hok 0 (Nat.succ_pos p)
        simpa using this
      have hrec : tc003Loop res (i + 1) m = (.failed "Request failed", p + 1) := by
        apply ih m (i + 1) (Nat.lt_of_succ_lt_succ hn)
        · intro j hj
          have := hok (j + 1) (Nat.succ_lt_succ hj)
          simpa [Nat.add_assoc, Nat.add_comm 1 j] using this
        · simpa [Nat.add_assoc, Nat.add_comm 1 p] using hfail
      simp [tc003Loop, h0, hrec]

theorem tc003Loop_allOk (res : Nat → Option Nat) :
    ∀ n i, (∀ j, j < n → res (i + j) = some 400) →
      tc003Loop res i n = (.passed, n) := by
  intro n
  induction n with
  | zero => intro i _; rfl
  | succ m ih =>
    intro i h
    have h0 : res i = some 400 := by
      have := h 0 (Nat.succ_pos m)
      simpa using this
    have hrec : tc003Loop res (i + 1) m = (.passed, m) := by
      apply ih
      intro j hj
      have := h (j + 1) (Nat.succ_lt_succ hj)
      simpa [Nat.add_assoc, Nat.add_comm 1 j] using this
    simp [tc003Loop, h0, hrec]

/-- C6: every one of the 44 HTTP call sites across the ten scripts passes
the fixed 30-second timeout; and (TC003) a request that times out or fails
to connect fails the step on the spot — the run stops with exactly one
request issued at the failing position and none retried — while an
exception-free run issues exactly one request per token. -/
theorem all_requests_fixed_timeout (res : Nat → Option Nat) :
    (∀ r ∈ allRequests, r.timeoutSeconds = 30) ∧
    TIMEOUT = 30 ∧
    allRequests.length = 44 ∧
    (∀ k, k < tc003Tokens.length → (∀ j, j < k → res j = some 400) →
      res k = none → tc003Run res = (.failed "Request failed", k + 1)) ∧
    ((∀ j, j < tc003Tokens.length → res j = some 400) →
      tc003Run res = (.passed, tc003Tokens.length)) := by
  refine ⟨by decide, rfl, by decide, ?_, ?_⟩
  · intro k hk hok hfail
    unfold tc003Run
    apply tc003Loop_fail res k tc003Tokens.length 0 hk
    · intro j hj; simpa using hok j hj
    · simpa using hfail
  · intro hok
    unfold tc003Run
    apply tc003Loop_allOk
    intro j hj; simpa using hok j hj

/-- Witness for C6: a connection failure on the second TC003 request fails
the run after exactly two requests; three 400 responses pass it with exactly
three requests. -/
theorem all_requests_fixed_timeout_witness :
    tc003Run (fun j => if j = 1 then none else some 400) =
      (.failed "Request failed", 2) ∧
    tc003Run (fun _ => some 400) = (.passed, 3) := by
  constructor
  · exact (all_requests_fixed_timeout (fun j => if j = 1 then none else some 400)).2.2.2.1
      1 (by decide) (by decide) (by decide)
  · exact (all_requests_fixed_timeout (fun _ => some 400)).2.2.2.2 (by decide)
